import Mathlib

/-!
Shallow embedding of the PromptCAD schematic-rendering engine
(`src/services/techDrawEngine.ts` together with the data model in
`src/types.ts`).

Modelling conventions:
* Coordinates are exact reals (the TypeScript source computes with IEEE
  doubles; the algorithms are specified over the real plane).
* An SVG element is `SvgEl.el tag attrs children content`; attribute values
  are structured (`AttrVal`), and the interpolated `d` string of a routed
  wire is carried as its list of route points (`AttrVal.route`), since that
  string is exactly the `M p1 L a L b L p2` encoding of those points.
* The DOM child list of the engine's active layer is a Lean list in document
  order: earlier elements are painted first, hence sit visually BEHIND later
  ones.  `insertBefore(firstChild)` is cons at the head; `appendChild` is
  append at the tail.
* The `Map<string, ComponentInstance>` registry is a function
  `String → Option ComponentInstance` (`get` is application, `set` is a
  pointwise update, `clear` is the constantly-`none` function); the source
  never iterates the map, so insertion order is unobservable.
* Content of the host `<svg>` outside the engine's own layer (grid,
  pan/zoom wrapper) is the `hostDecoration` field, which no engine
  operation touches.
-/

namespace PromptCAD

/-- `PinPosition` from src/types.ts: a point of the logical drawing plane. -/
structure PinPosition where
  x : ℝ
  y : ℝ

/-- Structured value of an SVG attribute as the engine writes it. -/
inductive AttrVal where
  /-- a literal string attribute (classes, literal path data, ids) -/
  | str (s : String)
  /-- a numeric attribute (`x1`, `cx`, `r`, ...), stringified by `createEl` -/
  | num (r : ℝ)
  /-- the `d` attribute `M p₀ L p₁ L p₂ L p₃` of a routed wire -/
  | route (pts : List PinPosition)
  /-- the `transform` attribute `translate(x,y) rotate(r)` of a symbol group -/
  | translateRotate (x y r : ℝ)
  /-- the `transform` attribute `rotate(r)` of a counter-rotated label -/
  | rot (r : ℝ)

/-- An SVG element: tag, attributes in the order they are set, child
elements in document order, and text content. -/
inductive SvgEl where
  | el (tag : String) (attrs : List (String × AttrVal)) (children : List SvgEl)
      (content : String)

/-- `createEl` of the engine: a childless element with empty text content. -/
def createEl (tag : String) (attrs : List (String × AttrVal)) : SvgEl :=
  SvgEl.el tag attrs [] ""

/-- `ComponentType` from src/types.ts: the closed component-type union. -/
inductive ComponentType where
  | resistor | capacitor | inductor | diode | led
  | source_v | source_i | gnd
  | opamp
  | transistor_npn | transistor_pnp
  | mosfet_n | mosfet_p
  | gate_and | gate_or | gate_not | gate_nand | gate_nor | gate_xor
  | arduino_uno | stepper_motor | driver_stepper | antenna | ic_555
deriving DecidableEq, Repr

/-- `ComponentConfig` from src/types.ts (`rotate` and `label` optional). -/
structure ComponentConfig where
  x : ℝ
  y : ℝ
  rotate : Option ℝ := none
  label : Option String := none

/-- `ComponentInstance` from src/types.ts: a placed component. -/
structure ComponentInstance where
  id : String
  type : ComponentType
  x : ℝ
  y : ℝ
  rotation : ℝ
  pins : List (String × PinPosition)

/-- State of a `TechDrawEngine`: the host-owned SVG content outside the
engine's layer, the child list of the engine's active layer, and the
component registry. -/
structure EngineState where
  hostDecoration : List SvgEl
  activeLayer : List SvgEl
  components : String → Option ComponentInstance

/-- A freshly constructed engine: the host hands it an empty `<g>` to draw
into; whatever decoration the host keeps elsewhere is untouched. -/
def init (hostDecoration : List SvgEl) : EngineState :=
  { hostDecoration := hostDecoration, activeLayer := [], components := fun _ => none }

/-- `drawSymbol` (src/services/techDrawEngine.ts lines 40–221), made pure:
returns the child elements appended to the symbol group together with the
record of relative pin positions.  Every literal is transcribed from the
source. -/
def drawSymbol (type : ComponentType) : List SvgEl × List (String × PinPosition) :=
  match type with
  | .resistor =>
    ([createEl "path"
        [("d", .str "M -30 0 L -20 0 L -15 -10 L -5 10 L 5 -10 L 15 10 L 20 0 L 30 0"),
         ("class", .str "stroke-slate-800 stroke-[2] fill-none stroke-linecap-round stroke-linejoin-round")]],
     [("left", ⟨-30, 0⟩), ("right", ⟨30, 0⟩)])
  | .capacitor =>
    ([createEl "line" [("x1", .num (-5)), ("y1", .num (-15)), ("x2", .num (-5)), ("y2", .num 15), ("class", .str "stroke-slate-800 stroke-[3]")],
      createEl "line" [("x1", .num 5), ("y1", .num (-15)), ("x2", .num 5), ("y2", .num 15), ("class", .str "stroke-slate-800 stroke-[3]")],
      createEl "line" [("x1", .num (-30)), ("y1", .num 0), ("x2", .num (-5)), ("y2", .num 0), ("class", .str "stroke-slate-800 stroke-[2]")],
      createEl "line" [("x1", .num 5), ("y1", .num 0), ("x2", .num 30), ("y2", .num 0), ("class", .str "stroke-slate-800 stroke-[2]")]],
     [("left", ⟨-30, 0⟩), ("right", ⟨30, 0⟩)])
  | .inductor =>
    ([createEl "path"
        [("d", .str "M -30 0 L -20 0 Q -15 -10 -10 0 Q -5 -10 0 0 Q 5 -10 10 0 Q 15 -10 20 0 L 30 0"),
         ("class", .str "stroke-slate-800 stroke-[2] fill-none")]],
     [("left", ⟨-30, 0⟩), ("right", ⟨30, 0⟩)])
  | .diode =>
    ([createEl "path" [("d", .str "M -10 -10 L -10 10 L 10 0 Z"), ("class", .str "fill-slate-800 stroke-none")],
      createEl "line" [("x1", .num 10), ("y1", .num (-10)), ("x2", .num 10), ("y2", .num 10), ("class", .str "stroke-slate-800 stroke-[3]")],
      createEl "line" [("x1", .num (-30)), ("y1", .num 0), ("x2", .num (-10)), ("y2", .num 0), ("class", .str "stroke-slate-800 stroke-[2]")],
      createEl "line" [("x1", .num 10), ("y1", .num 0), ("x2", .num 30), ("y2", .num 0), ("class", .str "stroke-slate-800 stroke-[2]")]],
     [("anode", ⟨-30, 0⟩), ("cathode", ⟨30, 0⟩)])
  | .led =>
    ([createEl "path" [("d", .str "M -10 -10 L -10 10 L 10 0 Z"), ("class", .str "fill-slate-800 stroke-none")],
      createEl "line" [("x1", .num 10), ("y1", .num (-10)), ("x2", .num 10), ("y2", .num 10), ("class", .str "stroke-slate-800 stroke-[3]")],
      createEl "line" [("x1", .num (-30)), ("y1", .num 0), ("x2", .num (-10)), ("y2", .num 0), ("class", .str "stroke-slate-800 stroke-[2]")],
      createEl "line" [("x1", .num 10), ("y1", .num 0), ("x2", .num 30), ("y2", .num 0), ("class", .str "stroke-slate-800 stroke-[2]")],
      createEl "path" [("d", .str "M -5 -15 L 5 -25 M 5 -15 L 15 -25"), ("class", .str "stroke-slate-800 stroke-[1.5] fill-none")],
      createEl "path" [("d", .str "M 2 -25 L 5 -25 L 5 -22 M 12 -25 L 15 -25 L 15 -22"), ("class", .str "stroke-slate-800 stroke-[1.5] fill-none")]],
     [("anode", ⟨-30, 0⟩), ("cathode", ⟨30, 0⟩)])
  | .source_v =>
    ([createEl "circle" [("cx", .num 0), ("cy", .num 0), ("r", .num 20), ("class", .str "stroke-slate-800 stroke-[2] fill-none")],
      SvgEl.el "text" [("x", .num (-5)), ("y", .num (-5)), ("style", .str "font-size: 16px; font-family: sans-serif;")] [] "+",
      SvgEl.el "text" [("x", .num (-3)), ("y", .num 15), ("style", .str "font-size: 16px; font-family: sans-serif;")] [] "-",
      createEl "line" [("x1", .num 0), ("y1", .num (-30)), ("x2", .num 0), ("y2", .num (-20)), ("class", .str "stroke-slate-800 stroke-[2]")],
      createEl "line" [("x1", .num 0), ("y1", .num 20), ("x2", .num 0), ("y2", .num 30), ("class", .str "stroke-slate-800 stroke-[2]")]],
     [("top", ⟨0, -30⟩), ("bottom", ⟨0, 30⟩)])
  | .source_i =>
    ([createEl "circle" [("cx", .num 0), ("cy", .num 0), ("r", .num 20), ("class", .str "stroke-slate-800 stroke-[2] fill-none")],
      createEl "path" [("d", .str "M 0 -10 L 0 10 L 5 5 M 0 10 L -5 5"), ("class", .str "stroke-slate-800 stroke-[2] fill-none")],
      createEl "line" [("x1", .num 0), ("y1", .num (-30)), ("x2", .num 0), ("y2", .num (-20)), ("class", .str "stroke-slate-800 stroke-[2]")],
      createEl "line" [("x1", .num 0), ("y1", .num 20), ("x2", .num 0), ("y2", .num 30), ("class", .str "stroke-slate-800 stroke-[2]")]],
     [("top", ⟨0, -30⟩), ("bottom", ⟨0, 30⟩)])
  | .gnd =>
    ([createEl "path" [("d", .str "M 0 -10 L 0 0 M -15 0 L 15 0 M -10 5 L 10 5 M -5 10 L 5 10"), ("class", .str "stroke-slate-800 stroke-[2] fill-none")]],
     [("top", ⟨0, -10⟩)])
  | .opamp =>
    ([createEl "path" [("d", .str "M -30 -35 L -30 35 L 35 0 Z"), ("class", .str "stroke-slate-800 stroke-[2] fill-white")],
      SvgEl.el "text" [("x", .num (-25)), ("y", .num (-10)), ("style", .str "font-size: 14px; font-family: sans-serif;")] [] "-",
      SvgEl.el "text" [("x", .num (-25)), ("y", .num 20), ("style", .str "font-size: 14px; font-family: sans-serif;")] [] "+",
      createEl "line" [("x1", .num (-50)), ("y1", .num (-15)), ("x2", .num (-30)), ("y2", .num (-15)), ("class", .str "stroke-slate-800 stroke-[2]")],
      createEl "line" [("x1", .num (-50)), ("y1", .num 15), ("x2", .num (-30)), ("y2", .num 15), ("class", .str "stroke-slate-800 stroke-[2]")],
      createEl "line" [("x1", .num 35), ("y1", .num 0), ("x2", .num 55), ("y2", .num 0), ("class", .str "stroke-slate-800 stroke-[2]")]],
     [("in_inv", ⟨-50, -15⟩), ("in_non", ⟨-50, 15⟩), ("out", ⟨55, 0⟩)])
  | .transistor_npn =>
    ([createEl "circle" [("cx", .num 0), ("cy", .num 0), ("r", .num 25), ("class", .str "stroke-slate-800 stroke-[1.5] fill-none")],
      createEl "line" [("x1", .num (-15)), ("y1", .num (-15)), ("x2", .num (-15)), ("y2", .num 15), ("class", .str "stroke-slate-800 stroke-[3]")],
      createEl "line" [("x1", .num (-30)), ("y1", .num 0), ("x2", .num (-15)), ("y2", .num 0), ("class", .str "stroke-slate-800 stroke-[2]")],
      createEl "line" [("x1", .num (-15)), ("y1", .num (-10)), ("x2", .num 15), ("y2", .num (-25)), ("class", .str "stroke-slate-800 stroke-[2]")],
      createEl "line" [("x1", .num 15), ("y1", .num (-25)), ("x2", .num 15), ("y2", .num (-40)), ("class", .str "stroke-slate-800 stroke-[2]")],
      createEl "line" [("x1", .num (-15)), ("y1", .num 10), ("x2", .num 15), ("y2", .num 25), ("class", .str "stroke-slate-800 stroke-[2]")],
      createEl "line" [("x1", .num 15), ("y1", .num 25), ("x2", .num 15), ("y2", .num 40), ("class", .str "stroke-slate-800 stroke-[2]")],
      createEl "path" [("d", .str "M 10 28 L 16 26 L 14 20"), ("class", .str "stroke-slate-800 stroke-[2] fill-slate-800")]],
     [("base", ⟨-30, 0⟩), ("collector", ⟨15, -40⟩), ("emitter", ⟨15, 40⟩)])
  | .transistor_pnp =>
    ([createEl "circle" [("cx", .num 0), ("cy", .num 0), ("r", .num 25), ("class", .str "stroke-slate-800 stroke-[1.5] fill-none")],
      createEl "line" [("x1", .num (-15)), ("y1", .num (-15)), ("x2", .num (-15)), ("y2", .num 15), ("class", .str "stroke-slate-800 stroke-[3]")],
      createEl "line" [("x1", .num (-30)), ("y1", .num 0), ("x2", .num (-15)), ("y2", .num 0), ("class", .str "stroke-slate-800 stroke-[2]")],
      createEl "line" [("x1", .num (-15)), ("y1", .num (-10)), ("x2", .num 15), ("y2", .num (-25)), ("class", .str "stroke-slate-800 stroke-[2]")],
      createEl "line" [("x1", .num 15), ("y1", .num (-25)), ("x2", .num 15), ("y2", .num (-40)), ("class", .str "stroke-slate-800 stroke-[2]")],
      createEl "line" [("x1", .num (-15)), ("y1", .num 10), ("x2", .num 15), ("y2", .num 25), ("class", .str "stroke-slate-800 stroke-[2]")],
      createEl "line" [("x1", .num 15), ("y1", .num 25), ("x2", .num 15), ("y2", .num 40), ("class", .str "stroke-slate-800 stroke-[2]")],
      createEl "path" [("d", .str "M -5 10 L -2 16 L -10 16"), ("class", .str "stroke-slate-800 stroke-[2] fill-slate-800")]],
     [("base", ⟨-30, 0⟩), ("collector", ⟨15, -40⟩), ("emitter", ⟨15, 40⟩)])
  | .mosfet_n =>
    ([createEl "circle" [("cx", .num 0), ("cy", .num 0), ("r", .num 25), ("class", .str "stroke-slate-800 stroke-[1.5] fill-none")],
      createEl "line" [("x1", .num (-15)), ("y1", .num (-15)), ("x2", .num (-15)), ("y2", .num 15), ("class", .str "stroke-slate-800 stroke-[2]")],
      createEl "line" [("x1", .num (-5)), ("y1", .num (-15)), ("x2", .num (-5)), ("y2", .num (-5)), ("class", .str "stroke-slate-800 stroke-[2]")],
      createEl "line" [("x1", .num (-5)), ("y1", .num (-2)), ("x2", .num (-5)), ("y2", .num 2), ("class", .str "stroke-slate-800 stroke-[2]")],
      createEl "line" [("x1", .num (-5)), ("y1", .num 5), ("x2", .num (-5)), ("y2", .num 15), ("class", .str "stroke-slate-800 stroke-[2]")],
      createEl "line" [("x1", .num (-30)), ("y1", .num 0), ("x2", .num (-15)), ("y2", .num 0), ("class", .str "stroke-slate-800 stroke-[2]")],
      createEl "line" [("x1", .num (-5)), ("y1", .num (-10)), ("x2", .num 15), ("y2", .num (-10)), ("class", .str "stroke-slate-800 stroke-[2]")],
      createEl "line" [("x1", .num 15), ("y1", .num (-10)), ("x2", .num 15), ("y2", .num (-40)), ("class", .str "stroke-slate-800 stroke-[2]")],
      createEl "line" [("x1", .num (-5)), ("y1", .num 10), ("x2", .num 15), ("y2", .num 10), ("class", .str "stroke-slate-800 stroke-[2]")],
      createEl "line" [("x1", .num 15), ("y1", .num 10), ("x2", .num 15), ("y2", .num 40), ("class", .str "stroke-slate-800 stroke-[2]")],
      createEl "path" [("d", .str "M -5 0 L 0 -3 L 0 3 Z"), ("class", .str "fill-slate-800")]],
     [("gate", ⟨-30, 0⟩), ("drain", ⟨15, -40⟩), ("source", ⟨15, 40⟩)])
  | .mosfet_p =>
    ([createEl "circle" [("cx", .num 0), ("cy", .num 0), ("r", .num 25), ("class", .str "stroke-slate-800 stroke-[1.5] fill-none")],
      createEl "line" [("x1", .num (-15)), ("y1", .num (-15)), ("x2", .num (-15)), ("y2", .num 15), ("class", .str "stroke-slate-800 stroke-[2]")],
      createEl "line" [("x1", .num (-5)), ("y1", .num (-15)), ("x2", .num (-5)), ("y2", .num (-5)), ("class", .str "stroke-slate-800 stroke-[2]")],
      createEl "line" [("x1", .num (-5)), ("y1", .num (-2)), ("x2", .num (-5)), ("y2", .num 2), ("class", .str "stroke-slate-800 stroke-[2]")],
      createEl "line" [("x1", .num (-5)), ("y1", .num 5), ("x2", .num (-5)), ("y2", .num 15), ("class", .str "stroke-slate-800 stroke-[2]")],
      createEl "line" [("x1", .num (-30)), ("y1", .num 0), ("x2", .num (-15)), ("y2", .num 0), ("class", .str "stroke-slate-800 stroke-[2]")],
      createEl "line" [("x1", .num (-5)), ("y1", .num (-10)), ("x2", .num 15), ("y2", .num (-10)), ("class", .str "stroke-slate-800 stroke-[2]")],
      createEl "line" [("x1", .num 15), ("y1", .num (-10)), ("x2", .num 15), ("y2", .num (-40)), ("class", .str "stroke-slate-800 stroke-[2]")],
      createEl "line" [("x1", .num (-5)), ("y1", .num 10), ("x2", .num 15), ("y2", .num 10), ("class", .str "stroke-slate-800 stroke-[2]")],
      createEl "line" [("x1", .num 15), ("y1", .num 10), ("x2", .num 15), ("y2", .num 40), ("class", .str "stroke-slate-800 stroke-[2]")],
      createEl "path" [("d", .str "M 0 0 L -5 -3 L -5 3 Z"), ("class", .str "fill-slate-800")]],
     [("gate", ⟨-30, 0⟩), ("drain", ⟨15, -40⟩), ("source", ⟨15, 40⟩)])
  | .gate_and =>
    ([createEl "path" [("d", .str "M -30 -25 L -10 -25 A 25 25 0 0 1 -10 25 L -30 25 Z"), ("class", .str "stroke-slate-800 stroke-[2] fill-white")],
      createEl "line" [("x1", .num (-45)), ("y1", .num (-10)), ("x2", .num (-30)), ("y2", .num (-10)), ("class", .str "stroke-slate-800 stroke-[2]")],
      createEl "line" [("x1", .num (-45)), ("y1", .num 10), ("x2", .num (-30)), ("y2", .num 10), ("class", .str "stroke-slate-800 stroke-[2]")],
      createEl "line" [("x1", .num 15), ("y1", .num 0), ("x2", .num 30), ("y2", .num 0), ("class", .str "stroke-slate-800 stroke-[2]")]],
     [("in1", ⟨-45, -10⟩), ("in2", ⟨-45, 10⟩), ("out", ⟨30, 0⟩)])
  | .gate_nand =>
    ([createEl "path" [("d", .str "M -30 -25 L -10 -25 A 25 25 0 0 1 -10 25 L -30 25 Z"), ("class", .str "stroke-slate-800 stroke-[2] fill-white")],
      createEl "circle" [("cx", .num 20), ("cy", .num 0), ("r", .num 5), ("class", .str "stroke-slate-800 stroke-[2] fill-white")],
      createEl "line" [("x1", .num (-45)), ("y1", .num (-10)), ("x2", .num (-30)), ("y2", .num (-10)), ("class", .str "stroke-slate-800 stroke-[2]")],
      createEl "line" [("x1", .num (-45)), ("y1", .num 10), ("x2", .num (-30)), ("y2", .num 10), ("class", .str "stroke-slate-800 stroke-[2]")],
      createEl "line" [("x1", .num 25), ("y1", .num 0), ("x2", .num 35), ("y2", .num 0), ("class", .str "stroke-slate-800 stroke-[2]")]],
     [("in1", ⟨-45, -10⟩), ("in2", ⟨-45, 10⟩), ("out", ⟨35, 0⟩)])
  | .gate_or =>
    ([createEl "path" [("d", .str "M -30 -25 Q -10 -25 5 0 Q -10 25 -30 25 Q -20 0 -30 -25"), ("class", .str "stroke-slate-800 stroke-[2] fill-white")],
      createEl "line" [("x1", .num (-45)), ("y1", .num (-10)), ("x2", .num (-25)), ("y2", .num (-10)), ("class", .str "stroke-slate-800 stroke-[2]")],
      createEl "line" [("x1", .num (-45)), ("y1", .num 10), ("x2", .num (-25)), ("y2", .num 10), ("class", .str "stroke-slate-800 stroke-[2]")],
      createEl "line" [("x1", .num 5), ("y1", .num 0), ("x2", .num 25), ("y2", .num 0), ("class", .str "stroke-slate-800 stroke-[2]")]],
     [("in1", ⟨-45, -10⟩), ("in2", ⟨-45, 10⟩), ("out", ⟨25, 0⟩)])
  | .gate_nor =>
    ([createEl "path" [("d", .str "M -30 -25 Q -10 -25 5 0 Q -10 25 -30 25 Q -20 0 -30 -25"), ("class", .str "stroke-slate-800 stroke-[2] fill-white")],
      createEl "circle" [("cx", .num 10), ("cy", .num 0), ("r", .num 5), ("class", .str "stroke-slate-800 stroke-[2] fill-white")],
      createEl "line" [("x1", .num (-45)), ("y1", .num (-10)), ("x2", .num (-25)), ("y2", .num (-10)), ("class", .str "stroke-slate-800 stroke-[2]")],
      createEl "line" [("x1", .num (-45)), ("y1", .num 10), ("x2", .num (-25)), ("y2", .num 10), ("class", .str "stroke-slate-800 stroke-[2]")],
      createEl "line" [("x1", .num 15), ("y1", .num 0), ("x2", .num 30), ("y2", .num 0), ("class", .str "stroke-slate-800 stroke-[2]")]],
     [("in1", ⟨-45, -10⟩), ("in2", ⟨-45, 10⟩), ("out", ⟨30, 0⟩)])
  | .gate_not =>
    ([createEl "path" [("d", .str "M -20 -15 L -20 15 L 10 0 Z"), ("class", .str "stroke-slate-800 stroke-[2] fill-white")],
      createEl "circle" [("cx", .num 15), ("cy", .num 0), ("r", .num 5), ("class", .str "stroke-slate-800 stroke-[2] fill-white")],
      createEl "line" [("x1", .num (-35)), ("y1", .num 0), ("x2", .num (-20)), ("y2", .num 0), ("class", .str "stroke-slate-800 stroke-[2]")],
      createEl "line" [("x1", .num 20), ("y1", .num 0), ("x2", .num 35), ("y2", .num 0), ("class", .str "stroke-slate-800 stroke-[2]")]],
     [("in", ⟨-35, 0⟩), ("out", ⟨35, 0⟩)])
  | .gate_xor =>
    ([createEl "path" [("d", .str "M -25 -25 Q -5 -25 10 0 Q -5 25 -25 25 Q -15 0 -25 -25"), ("class", .str "stroke-slate-800 stroke-[2] fill-white")],
      createEl "path" [("d", .str "M -32 -25 Q -22 0 -32 25"), ("class", .str "stroke-slate-800 stroke-[2] fill-none")],
      createEl "line" [("x1", .num (-45)), ("y1", .num (-10)), ("x2", .num (-28)), ("y2", .num (-10)), ("class", .str "stroke-slate-800 stroke-[2]")],
      createEl "line" [("x1", .num (-45)), ("y1", .num 10), ("x2", .num (-28)), ("y2", .num 10), ("class", .str "stroke-slate-800 stroke-[2]")],
      createEl "line" [("x1", .num 10), ("y1", .num 0), ("x2", .num 25), ("y2", .num 0), ("class", .str "stroke-slate-800 stroke-[2]")]],
     [("in1", ⟨-45, -10⟩), ("in2", ⟨-45, 10⟩), ("out", ⟨25, 0⟩)])
  | _ => ([], [])

/-- `reset` (lines 23–29): empty the active layer, clear the registry. -/
def reset (st : EngineState) : EngineState :=
  { st with activeLayer := [], components := fun _ => none }

/-- The label `<text>` element `add` emits for a non-empty label, with the
counter-rotation transform and centering anchor set afterwards. -/
def labelEl (label : String) (rotate : ℝ) : SvgEl :=
  SvgEl.el "text"
    [("x", .num 0), ("y", .num (-45)),
     ("class", .str "fill-slate-600 font-sans text-xs font-bold text-anchor-middle text-center"),
     ("transform", .rot (-rotate)), ("text-anchor", .str "middle")]
    [] label

/-- `add` (lines 223–260): build the symbol group, append it to the active
layer, compute rotated absolute pin positions and register the instance,
overwriting any prior entry under the same id. -/
noncomputable def add (st : EngineState) (type : ComponentType) (id : String)
    (config : ComponentConfig) : EngineState :=
  let x := config.x
  let y := config.y
  let rotate := (config.rotate).getD 0
  let label := (config.label).getD ""
  let sym := drawSymbol type
  let g : SvgEl := SvgEl.el "g"
    [("class", .str "symbol cursor-pointer hover:opacity-80 transition-opacity"),
     ("transform", .translateRotate x y rotate),
     ("data-id", .str id)]
    (sym.1 ++ (if label ≠ "" then [labelEl label rotate] else [])) ""
  let rad := rotate * Real.pi / 180
  let c := Real.cos rad
  let s := Real.sin rad
  let absPins : List (String × PinPosition) :=
    sym.2.map fun kv => (kv.1, ⟨x + (kv.2.x * c - kv.2.y * s), y + (kv.2.x * s + kv.2.y * c)⟩)
  { st with
    activeLayer := st.activeLayer ++ [g],
    components := fun k =>
      if k = id then
        some { id := id, type := type, x := x, y := y, rotation := rotate, pins := absPins }
      else st.components k }

/-- The wire `<path>` element `connect` emits for a given route. -/
def wireEl (pts : List PinPosition) : SvgEl :=
  createEl "path" [("d", .route pts), ("class", .str "stroke-slate-700 stroke-[2] fill-none")]

/-- The solder-dot `<circle>` element `connect` emits at a pin. -/
def dotEl (p : PinPosition) : SvgEl :=
  createEl "circle" [("cx", .num p.x), ("cy", .num p.y), ("r", .num 3), ("class", .str "fill-slate-800")]

/-- `connect` (lines 262–308): resolve both pins; on failure warn and
return; otherwise Manhattan-route, insert the wire before the first child
of the active layer (or append when it is empty) and append the two solder
dots. -/
noncomputable def connect (st : EngineState) (fromId fromPin toId toPin : String) :
    EngineState :=
  match st.components fromId, st.components toId with
  | some c1, some c2 =>
    match c1.pins.lookup fromPin, c2.pins.lookup toPin with
    | some p1, some p2 =>
      let midX := (p1.x + p2.x) / 2
      let midY := (p1.y + p2.y) / 2
      let deltaX := |p1.x - p2.x|
      let deltaY := |p1.y - p2.y|
      let pts : List PinPosition :=
        if deltaX > deltaY then
          [p1, ⟨midX, p1.y⟩, ⟨midX, p2.y⟩, ⟨p2.x, p2.y⟩]
        else
          [p1, ⟨p1.x, midY⟩, ⟨p2.x, midY⟩, ⟨p2.x, p2.y⟩]
      { st with activeLayer := wireEl pts :: st.activeLayer ++ [dotEl p1, dotEl p2] }
    | _, _ => st
  | _, _ => st

/-- `getExportSVG` (lines 310–312): serialize the whole `<svg>`, host
decoration and diagram alike, as it stands. -/
def getExportSVG (st : EngineState) : List SvgEl × List SvgEl :=
  (st.hostDecoration, st.activeLayer)

/-- The `ComponentInstance` that `add type id config` registers: pose from
the config and each relative pin offset rotated by the rotation matrix for
`rotation` degrees and translated by `(x, y)`.  Definitionally the record
built in `add`, factored out so theorems can name it. -/
noncomputable def placedInstance (type : ComponentType) (id : String)
    (config : ComponentConfig) : ComponentInstance :=
  let rotate := (config.rotate).getD 0
  let rad := rotate * Real.pi / 180
  { id := id, type := type, x := config.x, y := config.y, rotation := rotate,
    pins := (drawSymbol type).2.map fun kv =>
      (kv.1, ⟨config.x + (kv.2.x * Real.cos rad - kv.2.y * Real.sin rad),
              config.y + (kv.2.x * Real.sin rad + kv.2.y * Real.cos rad)⟩) }

/-- The `<g>` element that `add type id config` appends to the active
layer, again definitionally the one built in `add`. -/
def symbolGroup (type : ComponentType) (id : String) (config : ComponentConfig) : SvgEl :=
  let rotate := (config.rotate).getD 0
  let label := (config.label).getD ""
  SvgEl.el "g"
    [("class", .str "symbol cursor-pointer hover:opacity-80 transition-opacity"),
     ("transform", .translateRotate config.x config.y rotate),
     ("data-id", .str id)]
    ((drawSymbol type).1 ++ (if label ≠ "" then [labelEl label rotate] else [])) ""

/-- The route `connect` computes between two resolved pins: strict
horizontal dominance picks the horizontal-priority branch, everything else
(ties included) the vertical-priority branch. -/
noncomputable def routePoints (p1 p2 : PinPosition) : List PinPosition :=
  if |p1.x - p2.x| > |p1.y - p2.y| then
    [p1, ⟨(p1.x + p2.x) / 2, p1.y⟩, ⟨(p1.x + p2.x) / 2, p2.y⟩, ⟨p2.x, p2.y⟩]
  else
    [p1, ⟨p1.x, (p1.y + p2.y) / 2⟩, ⟨p2.x, (p1.y + p2.y) / 2⟩, ⟨p2.x, p2.y⟩]

/-- The two-stage pin resolution `connect` performs on each endpoint:
registry lookup of the id, then record lookup of the pin name. -/
def pinOf (st : EngineState) (id pin : String) : Option PinPosition :=
  match st.components id with
  | some c => c.pins.lookup pin
  | none => none

/-- Names of the pins the Symbol Library defines for a type, in record
order. -/
def pinNames (type : ComponentType) : List String :=
  (drawSymbol type).2.map Prod.fst

/-- States reachable from a freshly constructed engine by the public
operations. -/
inductive Reachable : EngineState → Prop where
  | started (hostDecoration : List SvgEl) : Reachable (init hostDecoration)
  | stepAdd (st : EngineState) (type : ComponentType) (id : String)
      (config : ComponentConfig) : Reachable st → Reachable (add st type id config)
  | stepConnect (st : EngineState) (fromId fromPin toId toPin : String) :
      Reachable st → Reachable (connect st fromId fromPin toId toPin)
  | stepReset (st : EngineState) : Reachable st → Reachable (reset st)

section Lemmas

/-- `add` in terms of the factored definitions. -/
theorem add_eq (st : EngineState) (type : ComponentType) (id : String)
    (config : ComponentConfig) :
    add st type id config =
      { st with
        activeLayer := st.activeLayer ++ [symbolGroup type id config],
        components := fun k =>
          if k = id then some (placedInstance type id config) else st.components k } :=
  rfl

/-- Looking up the just-added id returns the placed instance. -/
theorem add_components_self (st : EngineState) (type : ComponentType) (id : String)
    (config : ComponentConfig) :
    (add st type id config).components id = some (placedInstance type id config) := by
  simp [add_eq]

/-- Looking up any other id is unchanged by `add`. -/
theorem add_components_other (st : EngineState) (type : ComponentType) (id k : String)
    (config : ComponentConfig) (hk : k ≠ id) :
    (add st type id config).components k = st.components k := by
  simp [add_eq, hk]

/-- `connect` never touches the registry, in any branch. -/
theorem connect_components (st : EngineState) (fromId fromPin toId toPin : String) :
    (connect st fromId fromPin toId toPin).components = st.components := by
  unfold connect
  split
  · split
    · rfl
    · rfl
  · rfl

/-- `connect` never touches the host decoration, in any branch. -/
theorem connect_hostDecoration (st : EngineState) (fromId fromPin toId toPin : String) :
    (connect st fromId fromPin toId toPin).hostDecoration = st.hostDecoration := by
  unfold connect
  split
  · split
    · rfl
    · rfl
  · rfl

/-- When both endpoints resolve, `connect` conses the routed wire at the
head of the layer and appends the two solder dots at the tail. -/
theorem connect_resolved (st : EngineState) (fromId fromPin toId toPin : String)
    (c1 c2 : ComponentInstance) (p1 p2 : PinPosition)
    (h1 : st.components fromId = some c1) (h2 : st.components toId = some c2)
    (h3 : c1.pins.lookup fromPin = some p1) (h4 : c2.pins.lookup toPin = some p2) :
    connect st fromId fromPin toId toPin =
      { st with activeLayer := wireEl (routePoints p1 p2) :: st.activeLayer ++ [dotEl p1, dotEl p2] } := by
  unfold connect
  rw [h1, h2]
  dsimp only
  rw [h3, h4]
  rfl

/-- When either endpoint fails to resolve, `connect` returns the state
unchanged. -/
theorem connect_failed (st : EngineState) (fromId fromPin toId toPin : String)
    (h : pinOf st fromId fromPin = none ∨ pinOf st toId toPin = none) :
    connect st fromId fromPin toId toPin = st := by
  cases h1 : st.components fromId with
  | none => unfold connect; rw [h1]
  | some c1 =>
    cases h2 : st.components toId with
    | none => unfold connect; rw [h1, h2]
    | some c2 =>
      cases h3 : c1.pins.lookup fromPin with
      | none => unfold connect; rw [h1, h2]; dsimp only; rw [h3]
      | some p1 =>
        cases h4 : c2.pins.lookup toPin with
        | none => unfold connect; rw [h1, h2]; dsimp only; rw [h3, h4]
        | some p2 =>
          exfalso
          rcases h with h | h <;> simp [pinOf, h1, h2, h3, h4] at h

end Lemmas

/-- C10: for every input, resolving or not, `connect` leaves the component
registry completely unchanged — the registered ids and every instance's
type, pose and pin positions are identical before and after the call; only
the drawing sink can be modified. -/
theorem connect_preserves_registry (st : EngineState) (fromId fromPin toId toPin : String) :
    (connect st fromId fromPin toId toPin).components = st.components :=
  connect_components st fromId fromPin toId toPin

/-- C7: after `reset`, from any state, the registry is empty and the
engine's active diagram layer holds no primitives, while host-owned
decoration outside the engine's layer is unchanged. -/
theorem reset_clears_own_content_only (st : EngineState) :
    (reset st).components = (fun _ => none) ∧ (reset st).activeLayer = [] ∧
      (reset st).hostDecoration = st.hostDecoration :=
  ⟨rfl, rfl, rfl⟩

/-- C5: a `connect` whose endpoints fail to resolve — unknown id or pin
name absent from the resolved instance's pin record — emits zero new
primitives and leaves the whole engine state untouched; being a total
function of the state it returns normally, so the instruction sequence
continues. -/
theorem connect_unresolved_is_noop (st : EngineState) (fromId fromPin toId toPin : String)
    (h : pinOf st fromId fromPin = none ∨ pinOf st toId toPin = none) :
    connect st fromId fromPin toId toPin = st :=
  connect_failed st fromId fromPin toId toPin h

theorem connect_unresolved_is_noop_witness :
    connect (add (init []) .resistor "r1" { x := 0, y := 0 }) "r1" "anode" "r1" "left" =
      add (init []) .resistor "r1" { x := 0, y := 0 } :=
  connect_unresolved_is_noop _ "r1" "anode" "r1" "left"
    (Or.inl (by simp [pinOf, add_eq, placedInstance, drawSymbol, createEl]))

/-- C4: a `connect` whose two (id, pin) pairs both resolve adds exactly one
path primitive and exactly two marker primitives to the drawing sink; the
path is inserted at the back of the draw order (the head of the
document-order child list, behind everything already drawn) and the two
solder-dot markers are appended in normal front order. -/
theorem connect_wire_behind_dots_front (st : EngineState) (fromId fromPin toId toPin : String)
    (c1 c2 : ComponentInstance) (p1 p2 : PinPosition)
    (h1 : st.components fromId = some c1) (h2 : st.components toId = some c2)
    (h3 : c1.pins.lookup fromPin = some p1) (h4 : c2.pins.lookup toPin = some p2) :
    (connect st fromId fromPin toId toPin).activeLayer =
      wireEl (routePoints p1 p2) :: st.activeLayer ++ [dotEl p1, dotEl p2] := by
  rw [connect_resolved st fromId fromPin toId toPin c1 c2 p1 p2 h1 h2 h3 h4]

theorem connect_wire_behind_dots_front_witness :
    (connect (add (add (init []) .resistor "ra" { x := 0, y := 0 })
        .resistor "rb" { x := 200, y := 0 }) "ra" "right" "rb" "left").activeLayer =
      wireEl (routePoints ⟨30, 0⟩ ⟨170, 0⟩) ::
        (add (add (init []) .resistor "ra" { x := 0, y := 0 })
          .resistor "rb" { x := 200, y := 0 }).activeLayer ++
        [dotEl ⟨30, 0⟩, dotEl ⟨170, 0⟩] := by
  have h1 : (add (add (init []) .resistor "ra" { x := 0, y := 0 })
      .resistor "rb" { x := 200, y := 0 }).components "ra" =
      some (placedInstance .resistor "ra" { x := 0, y := 0 }) := by
    simp [add_eq]
  have h2 : (add (add (init []) .resistor "ra" { x := 0, y := 0 })
      .resistor "rb" { x := 200, y := 0 }).components "rb" =
      some (placedInstance .resistor "rb" { x := 200, y := 0 }) := by
    simp [add_eq]
  have h3 : (placedInstance .resistor "ra" { x := 0, y := 0 }).pins.lookup "right" =
      some ⟨30, 0⟩ := by
    simp [placedInstance, drawSymbol, createEl, List.lookup]
  have h4 : (placedInstance .resistor "rb" { x := 200, y := 0 }).pins.lookup "left" =
      some ⟨170, 0⟩ := by
    simp [placedInstance, drawSymbol, createEl, List.lookup]
    norm_num [PinPosition.mk.injEq]
  exact connect_wire_behind_dots_front _ "ra" "right" "rb" "left" _ _ _ _ h1 h2 h3 h4

/-- C1: between two registered pins, `connect` emits the two-bend Manhattan
route: when `|p1.x − p2.x| > |p1.y − p2.y|` the path runs
p1 → (midX, p1.y) → (midX, p2.y) → p2, and otherwise — ties included — it
runs p1 → (p1.x, midY) → (p2.x, midY) → p2, the mids being the arithmetic
midpoints of the endpoints' coordinates. -/
theorem connect_manhattan_route (st : EngineState) (fromId fromPin toId toPin : String)
    (c1 c2 : ComponentInstance) (p1 p2 : PinPosition)
    (h1 : st.components fromId = some c1) (h2 : st.components toId = some c2)
    (h3 : c1.pins.lookup fromPin = some p1) (h4 : c2.pins.lookup toPin = some p2) :
    (|p1.x - p2.x| > |p1.y - p2.y| →
        (connect st fromId fromPin toId toPin).activeLayer.head? =
          some (wireEl [p1, ⟨(p1.x + p2.x) / 2, p1.y⟩, ⟨(p1.x + p2.x) / 2, p2.y⟩,
            ⟨p2.x, p2.y⟩]))
    ∧ (¬ |p1.x - p2.x| > |p1.y - p2.y| →
        (connect st fromId fromPin toId toPin).activeLayer.head? =
          some (wireEl [p1, ⟨p1.x, (p1.y + p2.y) / 2⟩, ⟨p2.x, (p1.y + p2.y) / 2⟩,
            ⟨p2.x, p2.y⟩])) := by
  rw [connect_resolved st fromId fromPin toId toPin c1 c2 p1 p2 h1 h2 h3 h4]
  constructor
  · intro h
    simp [routePoints, if_pos h]
  · intro h
    simp [routePoints, if_neg h]

theorem connect_manhattan_route_witness :
    (connect (add (add (init []) .capacitor "ca" { x := 0, y := 0 })
        .capacitor "cb" { x := 10, y := 100 }) "ca" "right" "cb" "left").activeLayer.head? =
      some (wireEl [⟨30, 0⟩, ⟨30, 50⟩, ⟨-20, 50⟩, ⟨-20, 100⟩]) := by
  have h1 : (add (add (init []) .capacitor "ca" { x := 0, y := 0 })
      .capacitor "cb" { x := 10, y := 100 }).components "ca" =
      some (placedInstance .capacitor "ca" { x := 0, y := 0 }) := by
    simp [add_eq]
  have h2 : (add (add (init []) .capacitor "ca" { x := 0, y := 0 })
      .capacitor "cb" { x := 10, y := 100 }).components "cb" =
      some (placedInstance .capacitor "cb" { x := 10, y := 100 }) := by
    simp [add_eq]
  have h3 : (placedInstance .capacitor "ca" { x := 0, y := 0 }).pins.lookup "right" =
      some ⟨30, 0⟩ := by
    simp [placedInstance, drawSymbol, createEl, List.lookup]
  have h4 : (placedInstance .capacitor "cb" { x := 10, y := 100 }).pins.lookup "left" =
      some ⟨-20, 100⟩ := by
    simp [placedInstance, drawSymbol, createEl, List.lookup]
    norm_num [PinPosition.mk.injEq]
  have hv : ¬ |((⟨30, 0⟩ : PinPosition)).x - ((⟨-20, 100⟩ : PinPosition)).x| >
      |((⟨30, 0⟩ : PinPosition)).y - ((⟨-20, 100⟩ : PinPosition)).y| := by
    norm_num
  have hmain := (connect_manhattan_route _ "ca" "right" "cb" "left" _ _ _ _ h1 h2 h3 h4).2 hv
  norm_num at hmain
  exact hmain

/-- C2: `add` computes every absolute pin position from the Symbol
Library's relative offset (px, py) as
(x + px·cos θ − py·sin θ, y + px·sin θ + py·cos θ), θ being the configured
rotation in degrees (default 0); in particular a 2-pin component with local
pins (−30,0)/(30,0) placed at the origin with rotation 90 gets absolute
pins (0,−30) and (0,30). -/
theorem add_rotated_pin_positions :
    (∀ (st : EngineState) (type : ComponentType) (id : String) (config : ComponentConfig),
      ((add st type id config).components id).map (fun inst => inst.pins) =
        some ((drawSymbol type).2.map fun kv =>
          (kv.1,
           ⟨config.x + (kv.2.x * Real.cos ((config.rotate).getD 0 * Real.pi / 180)
               - kv.2.y * Real.sin ((config.rotate).getD 0 * Real.pi / 180)),
            config.y + (kv.2.x * Real.sin ((config.rotate).getD 0 * Real.pi / 180)
               + kv.2.y * Real.cos ((config.rotate).getD 0 * Real.pi / 180))⟩)))
    ∧ pinOf (add (init []) .resistor "r1" { x := 0, y := 0, rotate := some 90 }) "r1" "left" =
        some ⟨0, -30⟩
    ∧ pinOf (add (init []) .resistor "r1" { x := 0, y := 0, rotate := some 90 }) "r1" "right" =
        some ⟨0, 30⟩ := by
  refine ⟨fun st type id config => ?_, ?_, ?_⟩
  · simp [add_eq, placedInstance]
  · simp [pinOf, add_eq, placedInstance, drawSymbol, createEl, List.lookup]
    rw [show (90 : ℝ) * Real.pi / 180 = Real.pi / 2 by ring]
    norm_num [Real.cos_pi_div_two, Real.sin_pi_div_two]
  · simp [pinOf, add_eq, placedInstance, drawSymbol, createEl, List.lookup]
    rw [show (90 : ℝ) * Real.pi / 180 = Real.pi / 2 by ring]
    norm_num [Real.cos_pi_div_two, Real.sin_pi_div_two]

/-- C6 counterexample: re-adding id "r1" at a new position leaves the
group drawn for the old placement (translate(0,0)) in the sink — the last
conjunct shows it is a genuinely different primitive from the new one —
while the registry already holds the new pose, refuting "no primitive of
the old placement remains". -/
theorem readd_keeps_old_geometry_cex :
    (add (add (init []) .resistor "r1" { x := 0, y := 0 }) .resistor "r1"
        { x := 100, y := 0 }).activeLayer =
      [symbolGroup .resistor "r1" { x := 0, y := 0 },
       symbolGroup .resistor "r1" { x := 100, y := 0 }]
    ∧ ((add (add (init []) .resistor "r1" { x := 0, y := 0 }) .resistor "r1"
        { x := 100, y := 0 }).components "r1").map (fun inst => inst.x) = some 100
    ∧ symbolGroup .resistor "r1" { x := 0, y := 0 } ≠
        symbolGroup .resistor "r1" { x := 100, y := 0 } := by
  refine ⟨by simp [add_eq, init], by simp [add_eq, placedInstance], ?_⟩
  simp only [symbolGroup, drawSymbol, SvgEl.el.injEq, ne_eq]
  intro h
  have := h.2.1
  simp [AttrVal.translateRotate.injEq] at this

/-- C6 amended: re-`add`-ing a previously used id fully replaces the prior
instance's pose and pins in the registry (the entry is overwritten, all
other entries untouched) and appends a freshly drawn symbol group for the
new placement, but it does not remove the prior placement's drawn geometry
from the Drawing Sink: every previously drawn primitive remains. -/
theorem readd_replaces_registry_appends_geometry (st : EngineState)
    (type : ComponentType) (id : String) (config : ComponentConfig) :
    (add st type id config).components =
      (fun k => if k = id then some (placedInstance type id config) else st.components k)
    ∧ (add st type id config).activeLayer =
        st.activeLayer ++ [symbolGroup type id config] :=
  ⟨rfl, rfl⟩

/-- C9: the composite tags have no Symbol Library entry, so `drawSymbol`
yields empty geometry and an empty pin record, and `add` — a total
function, so it never raises — registers the instance with an empty pin
set and appends a group holding no symbol geometry (only the optional
label text). -/
theorem unknown_type_empty_symbol :
    (drawSymbol .arduino_uno = ([], []) ∧ drawSymbol .stepper_motor = ([], []) ∧
     drawSymbol .driver_stepper = ([], []) ∧ drawSymbol .antenna = ([], []) ∧
     drawSymbol .ic_555 = ([], []))
    ∧ ∀ (t : ComponentType), drawSymbol t = ([], []) →
        ∀ (st : EngineState) (id : String) (config : ComponentConfig),
          (add st t id config).components id =
            some { id := id, type := t, x := config.x, y := config.y,
                   rotation := (config.rotate).getD 0, pins := [] }
          ∧ (add st t id config).activeLayer =
              st.activeLayer ++
                [SvgEl.el "g"
                  [("class", .str "symbol cursor-pointer hover:opacity-80 transition-opacity"),
                   ("transform", .translateRotate config.x config.y ((config.rotate).getD 0)),
                   ("data-id", .str id)]
                  (if (config.label).getD "" ≠ ""
                   then [labelEl ((config.label).getD "") ((config.rotate).getD 0)]
                   else []) ""] := by
  refine ⟨⟨rfl, rfl, rfl, rfl, rfl⟩, fun t ht st id config => ⟨?_, ?_⟩⟩
  · simp [add_eq, placedInstance, ht]
  · simp [add_eq, symbolGroup, ht]

theorem unknown_type_empty_symbol_witness :
    (add (init []) .ic_555 "u1" { x := 5, y := 7 }).components "u1" =
      some { id := "u1", type := .ic_555, x := 5, y := 7, rotation := 0, pins := [] }
    ∧ (add (init []) .ic_555 "u1" { x := 5, y := 7 }).activeLayer =
        [SvgEl.el "g"
          [("class", .str "symbol cursor-pointer hover:opacity-80 transition-opacity"),
           ("transform", .translateRotate 5 7 0),
           ("data-id", .str "u1")] [] ""] := by
  have h := unknown_type_empty_symbol.2 .ic_555 rfl (init []) "u1" { x := 5, y := 7 }
  refine ⟨by simpa using h.1, by simpa [init] using h.2⟩

/-- The registry invariant of C3: every registered instance's pin-name
list is exactly the pin-name list the Symbol Library defines for its
type. -/
def PinContract (st : EngineState) : Prop :=
  ∀ (id : String) (inst : ComponentInstance),
    st.components id = some inst → inst.pins.map Prod.fst = pinNames inst.type

/-- The pin-name invariant holds in every reachable state. -/
theorem pinContract_reachable (st : EngineState) (h : Reachable st) : PinContract st := by
  induction h with
  | started host =>
    intro id inst hid
    simp [init] at hid
  | stepAdd st type id config hst ih =>
    intro k inst hk
    rw [add_eq] at hk
    simp only at hk
    by_cases hkid : k = id
    · rw [if_pos hkid] at hk
      rw [Option.some.injEq] at hk
      subst hk
      simp [placedInstance, pinNames, List.map_map, Function.comp]
    · rw [if_neg hkid] at hk
      exact ih k inst hk
  | stepConnect st fromId fromPin toId toPin hst ih =>
    intro k inst hk
    rw [connect_components] at hk
    exact ih k inst hk
  | stepReset st hst ih =>
    intro k inst hk
    simp [reset] at hk

/-- C3: for every type of the pin-contract table the Symbol Library's
pin-name list is exactly the documented one, and in every reachable state
every registered instance's pin-name list equals the Symbol Library's list
for its type — never a subset, superset, or caller-supplied set. -/
theorem pin_name_contract :
    (pinNames .resistor = ["left", "right"] ∧
     pinNames .capacitor = ["left", "right"] ∧
     pinNames .inductor = ["left", "right"] ∧
     pinNames .diode = ["anode", "cathode"] ∧
     pinNames .led = ["anode", "cathode"] ∧
     pinNames .source_v = ["top", "bottom"] ∧
     pinNames .source_i = ["top", "bottom"] ∧
     pinNames .gnd = ["top"] ∧
     pinNames .opamp = ["in_inv", "in_non", "out"] ∧
     pinNames .transistor_npn = ["base", "collector", "emitter"] ∧
     pinNames .transistor_pnp = ["base", "collector", "emitter"] ∧
     pinNames .mosfet_n = ["gate", "drain", "source"] ∧
     pinNames .mosfet_p = ["gate", "drain", "source"] ∧
     pinNames .gate_not = ["in", "out"] ∧
     pinNames .gate_and = ["in1", "in2", "out"] ∧
     pinNames .gate_or = ["in1", "in2", "out"] ∧
     pinNames .gate_nand = ["in1", "in2", "out"] ∧
     pinNames .gate_nor = ["in1", "in2", "out"] ∧
     pinNames .gate_xor = ["in1", "in2", "out"])
    ∧ ∀ (st : EngineState), Reachable st → PinContract st :=
  ⟨⟨rfl, rfl, rfl, rfl, rfl, rfl, rfl, rfl, rfl, rfl, rfl, rfl, rfl, rfl, rfl,
    rfl, rfl, rfl, rfl⟩,
   pinContract_reachable⟩

theorem pin_name_contract_witness :
    ((add (init []) .opamp "u2" { x := 1, y := 2 }).components "u2").map
      (fun inst => inst.pins.map Prod.fst) = some ["in_inv", "in_non", "out"] := by
  have hr : Reachable (add (init []) .opamp "u2" { x := 1, y := 2 }) :=
    Reachable.stepAdd _ _ _ _ (Reachable.started [])
  have hc : (add (init []) .opamp "u2" { x := 1, y := 2 }).components "u2" =
      some (placedInstance .opamp "u2" { x := 1, y := 2 }) := by
    simp [add_eq]
  have hnames := pin_name_contract.2 _ hr "u2" _ hc
  rw [hc]
  dsimp only [Option.map]
  rw [hnames]
  rfl

/-- C8 counterexample: in the end-to-end resistor scenario the resolved
pins are (−70,0) and (70,0), so the deltaX the router computes is
|−70 − 70| = 140 — not 170 as claimed. -/
theorem demo_deltaX_cex :
    pinOf (add (add (init []) .resistor "r1" { x := -100, y := 0 })
        .resistor "r2" { x := 100, y := 0 }) "r1" "right" = some ⟨-70, 0⟩
    ∧ pinOf (add (add (init []) .resistor "r1" { x := -100, y := 0 })
        .resistor "r2" { x := 100, y := 0 }) "r2" "left" = some ⟨70, 0⟩
    ∧ |(-70 : ℝ) - 70| = 140 ∧ (140 : ℝ) ≠ 170 := by
  refine ⟨?_, ?_, by norm_num, by norm_num⟩
  · simp [pinOf, add_eq, placedInstance, drawSymbol, createEl, List.lookup]
    norm_num
  · simp [pinOf, add_eq, placedInstance, drawSymbol, createEl, List.lookup]
    norm_num

/-- C8 amended: the end-to-end sequence resolves the pins to (−70,0) and
(70,0); deltaX = 140 > deltaY = 0, so the router takes the
horizontal-priority branch and emits the straight horizontal path
(−70,0) → (0,0) → (0,0) → (70,0) between the two pins. -/
theorem demo_horizontal_route :
    (connect (add (add (init []) .resistor "r1" { x := -100, y := 0 })
        .resistor "r2" { x := 100, y := 0 }) "r1" "right" "r2" "left").activeLayer.head? =
      some (wireEl [⟨-70, 0⟩, ⟨0, 0⟩, ⟨0, 0⟩, ⟨70, 0⟩])
    ∧ |(-70 : ℝ) - 70| = 140 ∧ |(0 : ℝ) - 0| = 0 ∧ (140 : ℝ) > 0 := by
  have h1 : (add (add (init []) .resistor "r1" { x := -100, y := 0 })
      .resistor "r2" { x := 100, y := 0 }).components "r1" =
      some (placedInstance .resistor "r1" { x := -100, y := 0 }) := by
    simp [add_eq]
  have h2 : (add (add (init []) .resistor "r1" { x := -100, y := 0 })
      .resistor "r2" { x := 100, y := 0 }).components "r2" =
      some (placedInstance .resistor "r2" { x := 100, y := 0 }) := by
    simp [add_eq]
  have h3 : (placedInstance .resistor "r1" { x := -100, y := 0 }).pins.lookup "right" =
      some ⟨-70, 0⟩ := by
    simp [placedInstance, drawSymbol, createEl, List.lookup]
    norm_num
  have h4 : (placedInstance .resistor "r2" { x := 100, y := 0 }).pins.lookup "left" =
      some ⟨70, 0⟩ := by
    simp [placedInstance, drawSymbol, createEl, List.lookup]
    norm_num
  refine ⟨?_, by norm_num, by norm_num, by norm_num⟩
  rw [connect_resolved _ "r1" "right" "r2" "left" _ _ _ _ h1 h2 h3 h4]
  have hroute : routePoints ⟨-70, 0⟩ ⟨70, 0⟩ = [⟨-70, 0⟩, ⟨0, 0⟩, ⟨0, 0⟩, ⟨70, 0⟩] := by
    rw [routePoints, if_pos (by norm_num)]
    norm_num
  rw [hroute]
  rfl

end PromptCAD
